import Mathlib

/-!
Verification of the SignalK course-provider plugin core
(src/lib/alarms.ts and src/worker/course.ts) against its specification.

Numeric model: JavaScript double arithmetic is modelled by exact rational
arithmetic over ℚ (rounding of individual double operations is not modelled).
The literal Math.PI is the IEEE-754 double 884279719003555 / 2^48, which is
used exactly as piQ.  The vendored geodesy library
(src/lib/geodesy/latlon-spherical.js, external to the analysed worker and
alarm sources) is abstracted as a record of rational-valued functions,
together with Math.cos; none of the verified claims depends on their values,
so the theorems quantify over that record.
-/

namespace CourseProvider

/-- Exact rational value of the IEEE-754 double Math.PI. -/
def piQ : ℚ := 884279719003555 / 281474976710656

namespace Angle

/-- Embedding of Angle.normalise (course.ts:390-393):
a < 0 ? a + pi2 : a >= pi2 ? a - pi2 : a, with pi2 = Math.PI*2. -/
def normalise (a : ℚ) : ℚ :=
  let pi2 := piQ * 2
  if a < 0 then a + pi2 else if pi2 ≤ a then a - pi2 else a

/-- Embedding of Angle.difference (course.ts:370-375):
d = 2π − b; hd = h + d; a = normalise hd; a < π ? 0 − a : 2π − a. -/
def difference (h b : ℚ) : ℚ :=
  let d := piQ * 2 - b
  let hd := h + d
  let a := normalise hd
  if a < piQ then 0 - a else piQ * 2 - a

end Angle

/-- Embedding of compassAngle (course.ts:36-43); structurally identical to
Angle.normalise. -/
def compassAngle (angle : ℚ) : ℚ :=
  let maxAngle := piQ * 2
  if angle < 0 then angle + maxAngle
  else if maxAngle ≤ angle then angle - maxAngle
  else angle

/-- Embedding of toRadians (course.ts:28-30). -/
def toRadians (value : ℚ) : ℚ := value * piQ / 180

/-- A latitude/longitude pair in degrees (the LatLon value type of the
geodesy library, data part only). -/
structure Position where
  latitude : ℚ
  longitude : ℚ
deriving DecidableEq

/-- Value stored under the snapshot keys navigation.course.nextPoint and
navigation.course.previousPoint: an object carrying a position that may
itself be absent/null. -/
structure PointEntry where
  position : Option Position
deriving DecidableEq

/-- Value stored under the snapshot key activeRoute.  Waypoints are
[longitude, latitude] pairs as in the source (wpts[idx][0] = lon,
wpts[idx][1] = lat); none models null / not-an-array.  pointIndex none
models the JS null checked at course.ts:273. -/
structure ActiveRoute where
  pointIndex : Option ℕ
  waypoints : Option (List (ℚ × ℚ))
  reverse : Bool
deriving DecidableEq

/-- The SKPaths input snapshot received by the worker: each field models one
of the dictionary keys read by course.ts, with none for an absent/null
value.  Timestamps (navigation.datetime, targetArrivalTime) are modelled by
their millisecond value, as produced by Date.getTime(). -/
structure SKPathsM where
  navPosition : Option Position := none
  nextPoint : Option PointEntry := none
  previousPoint : Option PointEntry := none
  magneticVariation : Option ℚ := none
  windAngleTrueGround : Option ℚ := none
  speedOverGround : Option ℚ := none
  courseOverGroundTrue : Option ℚ := none
  courseOverGroundMagnetic : Option ℚ := none
  datetime : Option ℤ := none
  targetArrivalTime : Option ℤ := none
  activeRoute : Option ActiveRoute := none
deriving DecidableEq

/-- Abstraction of the vendored geodesy library (LatLonSpherical methods
used by course.ts) plus Math.cos.  The verified claims hold for every
instantiation, so the values of these transcendental functions are left
abstract. -/
structure GeoLib where
  initialBearingTo : Position → Position → ℚ
  rhumbBearingTo : Position → Position → ℚ
  distanceTo : Position → Position → ℚ
  rhumbDistanceTo : Position → Position → ℚ
  crossTrackDistanceTo : Position → Position → Position → ℚ
  cos : ℚ → ℚ

/-- One per-method result object (interface CourseResult, types/index.ts,
plus the nested fields written by calcs).  Nested source fields are
flattened: previousPoint.distance ↦ previousPointDistance and
route.{timeToGo, estimatedTimeOfArrival, distance} ↦ routeTimeToGo,
routeEstimatedTimeOfArrival, routeDistance.  estimatedTimeOfArrival keys
are modelled by the millisecond value passed to new Date(...).toISOString().
A field value none models an absent or null JS field. -/
structure CourseResult where
  calcMethod : Option String := none
  bearingTrackTrue : Option ℚ := none
  bearingTrackMagnetic : Option ℚ := none
  crossTrackError : Option ℚ := none
  distance : Option ℚ := none
  bearingTrue : Option ℚ := none
  bearingMagnetic : Option ℚ := none
  velocityMadeGood : Option ℚ := none
  velocityMadeGoodToCourse : Option ℚ := none
  timeToGo : Option ℚ := none
  estimatedTimeOfArrival : Option ℤ := none
  previousPointDistance : Option ℚ := none
  routeTimeToGo : Option ℚ := none
  routeEstimatedTimeOfArrival : Option ℤ := none
  routeDistance : Option ℚ := none
  targetSpeed : Option ℚ := none
deriving DecidableEq

/-- The full result of one computation cycle (interface CourseData). -/
structure CourseData where
  gc : CourseResult
  rl : CourseResult
  passedPerpendicular : Bool
deriving DecidableEq

/-- The sentinel returned by calcs when a required position is missing
(course.ts:66-69): empty per-method results, passedPerpendicular false. -/
def emptyCourseData : CourseData :=
  { gc := {}, rl := {}, passedPerpendicular := false }

/-- Result of timeCalcs (interface CourseTimes, course.ts:184-194),
flattened: nextPoint.{ttg, eta} ↦ nextTtg, nextEta and
route.{ttg, eta, dtg} ↦ routeTtg, routeEta, routeDtg. -/
structure CourseTimes where
  nextTtg : Option ℚ := none
  nextEta : Option ℤ := none
  routeTtg : Option ℚ := none
  routeEta : Option ℤ := none
  routeDtg : Option ℚ := none
deriving DecidableEq

/-- Embedding of parseSKPaths (course.ts:20-26): all three required
positions must be present (truthy). -/
def parseSKPaths (src : SKPathsM) : Bool :=
  src.navPosition.isSome &&
    (src.nextPoint.bind PointEntry.position).isSome &&
    (src.previousPoint.bind PointEntry.position).isSome

/-- Embedding of vmg (course.ts:152-163): null unless both the true wind
angle and speed over ground are numbers. -/
def vmg (geo : GeoLib) (src : SKPathsM) : Option ℚ :=
  match src.windAngleTrueGround, src.speedOverGround with
  | some w, some sog => some (geo.cos w * sog)
  | _, _ => none

/-- Embedding of vmc (course.ts:166-182).  All call sites pass
bearingType = 'true' (bearingTypeTrue = true). -/
def vmc (geo : GeoLib) (src : SKPathsM) (bearing : ℚ) (bearingTypeTrue : Bool) : Option ℚ :=
  let cog := if bearingTypeTrue then src.courseOverGroundTrue else src.courseOverGroundMagnetic
  match cog, src.speedOverGround with
  | some c, some sog => some (geo.cos |Angle.difference bearing c| * sog)
  | _, _ => none

/-- new LatLon(wpts[idx][1], wpts[idx][0]): waypoint pairs are
[longitude, latitude]. -/
def wptToLatLon (w : ℚ × ℚ) : Position :=
  { latitude := w.2, longitude := w.1 }

/-- The summing loop body of routeRemaining (course.ts:306-315), written as
structural recursion on the number of remaining iterations: adds the leg
length from waypoint idx to waypoint idx+1 for the given number of steps.
Indexing uses a default that is never reached for the in-bounds index
ranges produced by routeRemaining. -/
def legLoop (geo : GeoLib) (rhumbLine : Bool) (wpts : List (ℚ × ℚ)) (idx : ℕ) : ℕ → ℚ
  | 0 => 0
  | steps + 1 =>
    let pt := wptToLatLon (wpts.getD idx (0, 0))
    let nxt := wptToLatLon (wpts.getD (idx + 1) (0, 0))
    (if rhumbLine then geo.rhumbDistanceTo pt nxt else geo.distanceTo pt nxt) +
      legLoop geo rhumbLine wpts (idx + 1) steps

/-- Sum of the leg lengths for idx = fromIndex, ..., bound - 1 (the JS loop
for (idx = fromIndex; idx < bound; idx++)). -/
def legSum (geo : GeoLib) (rhumbLine : Bool) (wpts : List (ℚ × ℚ)) (fromIndex bound : ℕ) : ℚ :=
  legLoop geo rhumbLine wpts fromIndex (bound - fromIndex)

/-- Embedding of routeRemaining (course.ts:271-317).  Note: in the reverse
branch the source computes toIndex = lastIndex − ptIndex and checks it
against fromIndex = 0, but the summing loop runs idx from fromIndex to
lastIndex − 1 (the loop condition is idx < lastIndex, not idx < toIndex),
which this definition reproduces faithfully. -/
def routeRemaining (geo : GeoLib) (src : SKPathsM) (rhumbLine : Bool) : ℚ :=
  match src.activeRoute with
  | none => 0
  | some ar =>
    match ar.pointIndex, ar.waypoints with
    | none, _ => 0
    | some _, none => 0
    | some ptIndex, some wpts =>
      if wpts.length < 2 then 0
      else
        let lastIndex := wpts.length - 1
        if ar.reverse then
          let toIndex := lastIndex - ptIndex
          if toIndex = 0 then 0
          else legSum geo rhumbLine wpts 0 lastIndex
        else
          if ptIndex = lastIndex then 0
          else legSum geo rhumbLine wpts ptIndex lastIndex

/-- Comparison definition for the refinement claim about reverse traversal,
following the spec's words: reverse traversal sums leg lengths from the
first waypoint only up to the mirrored index lastIndex − currentIndex.
Identical to routeRemaining except that the reverse-branch summing loop
stops at toIndex instead of lastIndex. -/
def routeRemainingSpecReverse (geo : GeoLib) (src : SKPathsM) (rhumbLine : Bool) : ℚ :=
  match src.activeRoute with
  | none => 0
  | some ar =>
    match ar.pointIndex, ar.waypoints with
    | none, _ => 0
    | some _, none => 0
    | some ptIndex, some wpts =>
      if wpts.length < 2 then 0
      else
        let lastIndex := wpts.length - 1
        if ar.reverse then
          let toIndex := lastIndex - ptIndex
          if toIndex = 0 then 0
          else legSum geo rhumbLine wpts 0 toIndex
        else
          if ptIndex = lastIndex then 0
          else legSum geo rhumbLine wpts ptIndex lastIndex

/-- Embedding of timeCalcs (course.ts:197-236).  distance is always a
number at the call sites (both positions are present when calcs computes
it), so the typeof guard reduces to the !vmc test: null or 0 (or NaN,
not modelled) short-circuits to the all-null result.  now models the
Date() fallback used when navigation.datetime is absent. -/
def timeCalcs (geo : GeoLib) (now : ℤ) (src : SKPathsM) (distance : ℚ)
    (vmcVal : Option ℚ) (rhumbLine : Bool) : CourseTimes :=
  let isRoute : Bool :=
    match src.activeRoute with
    | some ar =>
      match ar.waypoints with
      | some w => decide (w.length ≠ 0)
      | none => false
    | none => false
  match vmcVal with
  | none => {}
  | some v =>
    if v = 0 then {}
    else
      let dateMsec := src.datetime.getD now
      let nextTtgMsec : ℤ := ⌊distance / v * 1000⌋
      let base : CourseTimes :=
        { nextTtg := some ((nextTtgMsec : ℚ) / 1000)
          nextEta := some (dateMsec + nextTtgMsec) }
      if isRoute then
        let rteDistance := distance + routeRemaining geo src rhumbLine
        let routeTtgMsec : ℤ := ⌊rteDistance / v * 1000⌋
        { base with
            routeTtg := some ((routeTtgMsec : ℚ) / 1000)
            routeEta := some (dateMsec + routeTtgMsec)
            routeDtg := some rteDistance }
      else base

/-- Embedding of targetSpeed (course.ts:239-268).  The truthiness test on
src['activeRoute']?.waypoints is modelled by isSome (an array, even empty,
is truthy; none models null/undefined). -/
def targetSpeed (geo : GeoLib) (now : ℤ) (src : SKPathsM) (distance : ℚ)
    (rhumbLine : Bool) : Option ℚ :=
  match src.targetArrivalTime with
  | none => none
  | some tatMsec =>
    let dist2 :=
      if (src.activeRoute.bind ActiveRoute.waypoints).isSome then
        distance + routeRemaining geo src rhumbLine
      else distance
    let dateMsec := src.datetime.getD now
    if tatMsec ≤ dateMsec then none
    else some (dist2 / (((tatMsec - dateMsec : ℤ) : ℚ) / 1000))

/-- The local tangent-plane vector of course.ts:332-336.  The source stores
length = sqrt(x² + y²); the square is kept instead so the value stays
rational (only length = 0 and comparisons through acos are consumed, see
passedPerpendicular). -/
structure Vector where
  x : ℚ
  y : ℚ
  lengthSq : ℚ
deriving DecidableEq

/-- Embedding of the longitudinal-difference helper xDiff inside toVector
(course.ts:340-352), including the antimeridian corrections. -/
def xDiff (a b : ℚ) : ℚ :=
  let bx :=
    if 170 < a ∧ b < 0 then a + (180 - a) + (180 + b)
    else if a < -170 ∧ 0 < b then a - (180 + a) - (180 - b)
    else b
  bx - a

/-- Embedding of toVector (course.ts:338-362), carrying the squared length. -/
def toVector (origin endPoint : Position) : Vector :=
  let x := xDiff origin.longitude endPoint.longitude
  let y := endPoint.latitude - origin.latitude
  { x := x, y := y, lengthSq := x ^ 2 + y ^ 2 }

/-- Embedding of passedPerpendicular (course.ts:320-330).  The source
computes rad = acos(dot / (|va|·|vb|)), deg = (180/π)·rad and returns
deg > 90.  In exact arithmetic: when |va|·|vb| = 0 the quotient is NaN or
±infinity, Math.acos yields NaN, and NaN > 90 is false; otherwise
|dot| ≤ |va|·|vb| (Cauchy-Schwarz), acos is strictly decreasing with
acos 0 = π/2, so deg > 90 ⟺ dot < 0.  The returned boolean is therefore
the sign test on the dot product, guarded by the zero-length case. -/
def passedPerpendicular (vesselPosition destination startPoint : Position) : Bool :=
  let va := toVector destination vesselPosition
  let vb := toVector destination startPoint
  if va.lengthSq = 0 ∨ vb.lengthSq = 0 then false
  else decide (va.x * vb.x + va.y * vb.y < 0)

/-- A JavaScript runtime exception (the TypeError raised by reading a
property of undefined/null). -/
inductive JsError where
  | typeError
deriving DecidableEq

/-- Construction of the destination constant in calcs (course.ts:53-58):
src['navigation.course.nextPoint'] ? new LatLon(nextPoint.position.latitude,
...) : null.  When the entry is present but carries no position, the
unguarded .position.latitude access throws. -/
def destOf : Option PointEntry → Except JsError (Option Position)
  | none => Except.ok none
  | some np =>
    match np.position with
    | none => Except.error JsError.typeError
    | some p => Except.ok (some p)

/-- Construction of the startPoint constant in calcs (course.ts:59-64):
src['navigation.course.previousPoint'].position ? ... : null.  When the
previousPoint entry itself is absent, the unguarded .position access
throws. -/
def startOf : Option PointEntry → Except JsError (Option Position)
  | none => Except.error JsError.typeError
  | some pp => Except.ok pp.position

/-- The main body of calcs (course.ts:71-148) once all three positions are
known to be present. -/
def calcsFull (geo : GeoLib) (now : ℤ) (src : SKPathsM)
    (vesselPosition destination startPoint : Position) : CourseData :=
  let xte := geo.crossTrackDistanceTo vesselPosition startPoint destination
  let magVar := src.magneticVariation.getD 0
  let vmgValue := vmg geo src
  let bearingTrackTrue := toRadians (geo.initialBearingTo startPoint destination)
  let bearingTrue := toRadians (geo.initialBearingTo vesselPosition destination)
  let gcDistance := geo.distanceTo vesselPosition destination
  let gcVmc := vmc geo src bearingTrue true
  let gcTime := timeCalcs geo now src gcDistance gcVmc false
  let gcRes : CourseResult :=
    { calcMethod := some "GreatCircle"
      bearingTrackTrue := some bearingTrackTrue
      bearingTrackMagnetic := some (compassAngle (bearingTrackTrue + magVar))
      crossTrackError := some xte
      distance := some gcDistance
      bearingTrue := some bearingTrue
      bearingMagnetic := some (compassAngle (bearingTrue + magVar))
      velocityMadeGood := vmgValue
      velocityMadeGoodToCourse := gcVmc
      timeToGo := gcTime.nextTtg
      estimatedTimeOfArrival := gcTime.nextEta
      previousPointDistance := some (geo.distanceTo vesselPosition startPoint)
      routeTimeToGo := gcTime.routeTtg
      routeEstimatedTimeOfArrival := gcTime.routeEta
      routeDistance := gcTime.routeDtg
      targetSpeed := targetSpeed geo now src gcDistance false }
  let rlBearingTrackTrue := toRadians (geo.rhumbBearingTo startPoint destination)
  let rlBearingTrue := toRadians (geo.rhumbBearingTo vesselPosition destination)
  let rlDistance := geo.rhumbDistanceTo vesselPosition destination
  let rlVmc := vmc geo src rlBearingTrue true
  let rlTime := timeCalcs geo now src rlDistance rlVmc true
  let rlRes : CourseResult :=
    { calcMethod := some "Rhumbline"
      bearingTrackTrue := some rlBearingTrackTrue
      bearingTrackMagnetic := some (compassAngle (rlBearingTrackTrue + magVar))
      crossTrackError := some xte
      distance := some rlDistance
      bearingTrue := some rlBearingTrue
      bearingMagnetic := some (compassAngle (rlBearingTrue + magVar))
      velocityMadeGood := vmgValue
      velocityMadeGoodToCourse := rlVmc
      timeToGo := rlTime.nextTtg
      estimatedTimeOfArrival := rlTime.nextEta
      previousPointDistance := some (geo.rhumbDistanceTo vesselPosition startPoint)
      routeTimeToGo := rlTime.routeTtg
      routeEstimatedTimeOfArrival := rlTime.routeEta
      routeDistance := rlTime.routeDtg
      targetSpeed := targetSpeed geo now src rlDistance true }
  { gc := gcRes
    rl := rlRes
    passedPerpendicular := passedPerpendicular vesselPosition destination startPoint }

/-- Embedding of calcs (course.ts:46-149).  The three position constants
are evaluated in source order (vessel, destination, startPoint); a thrown
TypeError from the unguarded accesses is modelled as Except.error.  If any
of the three is null the sentinel emptyCourseData is returned (lines
66-69), otherwise the full result is computed. -/
def calcs (geo : GeoLib) (now : ℤ) (src : SKPathsM) : Except JsError CourseData :=
  let vesselPosition := src.navPosition
  match destOf src.nextPoint with
  | Except.error e => Except.error e
  | Except.ok destination =>
    match startOf src.previousPoint with
    | Except.error e => Except.error e
    | Except.ok startPoint =>
      match vesselPosition, destination, startPoint with
      | some vp, some dest, some sp => Except.ok (calcsFull geo now src vp dest sp)
      | _, _, _ => Except.ok emptyCourseData

/-- One message posted back to the host by the worker: either the outcome
of calcs, or the clearing message {gc: empty, rl: empty} posted on loss of
the active destination (course.ts:14; note it carries no passedPerpendicular
field). -/
inductive WorkerOut where
  | result : Except JsError CourseData → WorkerOut
  | cleared : WorkerOut

/-- Embedding of the parentPort message handler (course.ts:8-18), as a
function of the activeDest flag: returns the new flag and the list of
messages posted for this input. -/
def handleMsg (geo : GeoLib) (now : ℤ) (activeDest : Bool) (message : SKPathsM) :
    Bool × List WorkerOut :=
  if parseSKPaths message then (true, [WorkerOut.result (calcs geo now message)])
  else if activeDest then (false, [WorkerOut.cleared])
  else (false, [])

/-- Repeated application of the message handler to a sequence of input
snapshots, collecting all posted messages in order. -/
def runWorker (geo : GeoLib) (now : ℤ) : Bool → List SKPathsM → Bool × List WorkerOut
  | st, [] => (st, [])
  | st, m :: ms =>
    let step := handleMsg geo now st m
    let rest := runWorker geo now step.1 ms
    (rest.1, step.2 ++ rest.2)

/-- WatchEvent type tag (alarms.ts:35); the source string 'in' is a Lean
keyword and is rendered as inside. -/
inductive EventType where
  | enter
  | inside
  | exit
deriving DecidableEq

/-- Embedding of interface WatchEvent (alarms.ts:34-39). -/
structure WatchEvent where
  type : EventType
  value : ℚ
  fromBelow : Option Bool := none
  isBelow : Option Bool := none
deriving DecidableEq

/-- The private state of class Watcher (alarms.ts:46-51), with the source's
initial values as defaults. -/
structure WatcherState where
  rangeMin : ℚ := 0
  rangeMax : ℚ := 100
  sampleCount : ℕ := 0
  sampleSize : ℕ := 1
  val : ℚ := -1
  inRange : Bool := false
deriving DecidableEq

/-- Embedding of Watcher.isInRange (alarms.ts:107-113):
value <= rangeMax && value >= rangeMin. -/
def isInRange (s : WatcherState) (value : ℚ) : Bool :=
  decide (value ≤ s.rangeMax) && decide (s.rangeMin ≤ value)

/-- Embedding of Watcher._setValue (alarms.ts:115-152).  The caller (the
value setter) has already stored the new value in _val and incremented the
sample counter, so s.val = val here, exactly as in the source when this
method runs.  Inputs are always numbers in this model, so the typeof branch
is not reachable. -/
def _setValue (val : ℚ) (s : WatcherState) : WatcherState × List WatchEvent :=
  if s.sampleCount < s.sampleSize then (s, [])
  else
    let testInRange := isInRange s val
    let evs :=
      if testInRange then
        if s.inRange then [{ type := EventType.inside, value := val }]
        else
          [{ type := EventType.enter, value := val
             fromBelow := some (decide (s.val < s.rangeMin)) }]
      else
        if s.inRange then
          [{ type := EventType.exit, value := val
             isBelow := some (decide (val < s.rangeMin)) }]
        else []
    ({ s with inRange := testInRange, val := val, sampleCount := 0 }, evs)

/-- Embedding of the value setter (alarms.ts:55-65): stores the new value,
and only when it differs from the previous one increments the sample
counter and runs _setValue. -/
def setValue (val : ℚ) (s : WatcherState) : WatcherState × List WatchEvent :=
  if s.val = val then (s, [])
  else _setValue val { s with val := val, sampleCount := s.sampleCount + 1 }

/-- The event emission of Watcher._setRange (alarms.ts:154-183), factored
out of the state update so that theorems can name the emitted events. -/
def rangeTransitionEvents (s : WatcherState) : List WatchEvent :=
  if isInRange s s.val then
    if s.inRange then [{ type := EventType.inside, value := s.val }]
    else
      [{ type := EventType.enter, value := s.val
         fromBelow := some (decide (s.val < s.rangeMin)) }]
  else
    if s.inRange then
      [{ type := EventType.exit, value := s.val
         isBelow := some (decide (s.val < s.rangeMin)) }]
    else []

/-- Embedding of Watcher._setRange (alarms.ts:154-183): re-evaluates the
range test against the currently stored value and updates the in-range
flag; the sample counter is untouched. -/
def _setRange (s : WatcherState) : WatcherState × List WatchEvent :=
  ({ s with inRange := isInRange s s.val }, rangeTransitionEvents s)

/-- Embedding of the rangeMax setter (alarms.ts:70-79): stores the new
bound and runs _setRange only when the bound actually changed. -/
def setRangeMax (value : ℚ) (s : WatcherState) : WatcherState × List WatchEvent :=
  if s.rangeMax = value then ({ s with rangeMax := value }, [])
  else _setRange { s with rangeMax := value }

/-- Embedding of the rangeMin setter (alarms.ts:84-93). -/
def setRangeMin (value : ℚ) (s : WatcherState) : WatcherState × List WatchEvent :=
  if s.rangeMin = value then ({ s with rangeMin := value }, [])
  else _setRange { s with rangeMin := value }

/-- Feeding a sequence of values through the value setter, collecting all
emitted events in order. -/
def runValues : List ℚ → WatcherState → WatcherState × List WatchEvent
  | [], s => (s, [])
  | v :: rest, s =>
    let step := setValue v s
    let r := runValues rest step.1
    (r.1, step.2 ++ r.2)

/-! Concrete instantiations used by counterexamples and witnesses. -/

/-- A trivial geodesy instantiation: every primitive returns 0. -/
def geoZero : GeoLib :=
  { initialBearingTo := fun _ _ => 0
    rhumbBearingTo := fun _ _ => 0
    distanceTo := fun _ _ => 0
    rhumbDistanceTo := fun _ _ => 0
    crossTrackDistanceTo := fun _ _ _ => 0
    cos := fun _ => 0 }

/-- Taxicab distance, a concrete stand-in distance function. -/
def taxi (a b : Position) : ℚ :=
  |b.latitude - a.latitude| + |b.longitude - a.longitude|

/-- Geodesy instantiation whose two distance functions are the taxicab
distance. -/
def geoTaxi : GeoLib :=
  { geoZero with distanceTo := taxi, rhumbDistanceTo := taxi }

/-- Geodesy instantiation with constant distance 1000 and cos ≡ 1 (so that
vmc equals speed over ground). -/
def geoC4 : GeoLib :=
  { geoZero with
      distanceTo := fun _ _ => 1000
      rhumbDistanceTo := fun _ _ => 1000
      cos := fun _ => 1 }

/-- The origin position. -/
def pos00 : Position := { latitude := 0, longitude := 0 }

/-- The position 1°N 1°E. -/
def pos11 : Position := { latitude := 1, longitude := 1 }

/-- A complete snapshot: all three required positions present. -/
def srcGood : SKPathsM :=
  { navPosition := some pos00
    nextPoint := some { position := some pos11 }
    previousPoint := some { position := some pos00 } }

/-- An entirely empty snapshot (no required position present). -/
def srcBad : SKPathsM := {}

/-- Snapshot with vessel and next point present but the previousPoint entry
entirely absent: calcs dereferences .position of undefined. -/
def srcC3bad : SKPathsM :=
  { navPosition := some pos00
    nextPoint := some { position := some pos11 } }

/-- Snapshot with vessel and next point absent and a previousPoint entry
present: the safe absence shape for the sentinel. -/
def srcC3ok : SKPathsM :=
  { previousPoint := some { position := some pos00 } }

/-- Snapshot whose active route has exactly one waypoint, with speed and
course over ground set so that vmc = 5 under geoC4. -/
def srcC4 : SKPathsM :=
  { navPosition := some pos00
    nextPoint := some { position := some pos11 }
    previousPoint := some { position := some pos00 }
    speedOverGround := some 5
    courseOverGroundTrue := some 0
    datetime := some 0
    activeRoute := some { pointIndex := some 0, waypoints := some [(3, 3)], reverse := false } }

/-- Snapshot with a one-waypoint active route only (used with timeCalcs
directly). -/
def srcOneWpt : SKPathsM :=
  { activeRoute := some { pointIndex := some 0, waypoints := some [(3, 3)], reverse := false } }

/-- Snapshot with a reversed three-waypoint route, current waypoint index 1.
Waypoints are [lon, lat] pairs on the equator at 0°E, 1°E, 2°E, so under
geoTaxi every leg has length 1. -/
def srcC2 : SKPathsM :=
  { activeRoute := some
      { pointIndex := some 1
        waypoints := some [(0, 0), (1, 0), (2, 0)]
        reverse := true } }

/-- Watcher state with range [10, 20], sample size 1 (the defaults for the
remaining fields match the source's initial values). -/
def watcherC1 : WatcherState := { rangeMin := 10, rangeMax := 20 }

/-- Watcher state mid-debounce: one sample counted towards a sample size of
3, current value 15 inside the range [10, 20]. -/
def wStateC10 : WatcherState :=
  { rangeMin := 10, rangeMax := 20, sampleCount := 1, sampleSize := 3
    val := 15, inRange := true }

/-! Theorems. -/

/-- Math.PI is positive. -/
theorem piQ_pos : 0 < piQ := by norm_num [piQ]

/-- The single wrap performed by Angle.normalise lands in [0, 2π) exactly
for inputs in [-2π, 4π). -/
theorem normalise_bounds (a : ℚ) (h1 : -(piQ * 2) ≤ a) (h2 : a < piQ * 2 * 2) :
    0 ≤ Angle.normalise a ∧ Angle.normalise a < piQ * 2 := by
  have hpi := piQ_pos
  simp only [Angle.normalise]
  split_ifs with hneg hge
  · constructor <;> linarith
  · constructor <;> linarith
  · constructor <;> linarith

/-- Angle.normalise is the identity on [0, 2π). -/
theorem normalise_fixed (a : ℚ) (h1 : 0 ≤ a) (h2 : a < piQ * 2) :
    Angle.normalise a = a := by
  simp only [Angle.normalise]
  split_ifs with hneg hge
  · exact absurd hneg (not_lt.mpr h1)
  · exact absurd hge (not_le.mpr h2)
  · rfl

/-- C5 (corrected, counterexample): the claim that normalizeAngle maps
every real angle into [0, 2π) fails at a = −7: the source performs a single
wrap only, and −7 + 2π < 0. -/
theorem C5_counterexample :
    ¬ (0 ≤ Angle.normalise (-7) ∧ Angle.normalise (-7) < piQ * 2) := by
  norm_num [Angle.normalise, piQ]

/-- C5 (amended): for every angle a in the single-wrap domain [-2π, 4π)
(which contains every value the worker feeds to the function, namely sums
of a bearing in [0, 2π) and a small magnetic variation), normalizeAngle a
lies in [0, 2π), normalizeAngle is idempotent there, and compassAngle is
the same function as Angle.normalise. -/
theorem C5_normalise_amended (a : ℚ) (h1 : -(piQ * 2) ≤ a) (h2 : a < piQ * 2 * 2) :
    (0 ≤ Angle.normalise a ∧ Angle.normalise a < piQ * 2) ∧
      Angle.normalise (Angle.normalise a) = Angle.normalise a ∧
      compassAngle a = Angle.normalise a := by
  obtain ⟨hb1, hb2⟩ := normalise_bounds a h1 h2
  exact ⟨⟨hb1, hb2⟩, normalise_fixed _ hb1 hb2, rfl⟩

/-- C5 witness: the amended statement evaluated at a = −1. -/
theorem C5_witness :
    (0 ≤ Angle.normalise (-1) ∧ Angle.normalise (-1) < piQ * 2) ∧
      Angle.normalise (Angle.normalise (-1)) = Angle.normalise (-1) ∧
      compassAngle (-1) = Angle.normalise (-1) :=
  C5_normalise_amended (-1) (by norm_num [piQ]) (by norm_num [piQ])

/-- C6 (corrected, counterexample): the claim that angleDifference maps all
inputs into (−π, π] fails at h = 10, b = 0: the single wrap inside
normalise leaves a = 10 ≥ π, so the result is 2π − 10 ≤ −π. -/
theorem C6_counterexample :
    ¬ (-piQ < Angle.difference 10 0 ∧ Angle.difference 10 0 ≤ piQ) := by
  norm_num [Angle.difference, Angle.normalise, piQ]

/-- C6 (amended): for compass-range inputs h, b ∈ [0, 2π) (the range
produced by the call site, where the bearing comes from toRadians of a
0-360 degree bearing), angleDifference h b lies in (−π, π]. -/
theorem C6_difference_amended (h b : ℚ) (hh0 : 0 ≤ h) (hh1 : h < piQ * 2)
    (hb0 : 0 ≤ b) (hb1 : b < piQ * 2) :
    -piQ < Angle.difference h b ∧ Angle.difference h b ≤ piQ := by
  have hpi := piQ_pos
  simp only [Angle.difference, Angle.normalise]
  split_ifs <;> constructor <;> linarith

/-- C6 witness: the amended statement evaluated at h = 1, b = 2. -/
theorem C6_witness : -piQ < Angle.difference 1 2 ∧ Angle.difference 1 2 ≤ piQ :=
  C6_difference_amended 1 2 (by norm_num) (by norm_num [piQ]) (by norm_num)
    (by norm_num [piQ])

/-- C1 (code bug): with sampleSize 1 and range [10, 20], the monotonic
sweep 5, 15, 25 emits exactly one enter followed by exactly one exit with
isBelow = false, as claimed, but the enter event carries fromBelow = false
rather than true: the value setter overwrites _val with the new value
(alarms.ts:60) before _setValue compares _val against rangeMin
(alarms.ts:135), so the previous value 5 < 10 is never consulted,
contradicting the source's own comment (alarms.ts:32). -/
theorem C1_fromBelow_bug :
    (runValues [5, 15, 25] watcherC1).2 =
      [{ type := EventType.enter, value := 15, fromBelow := some false },
       { type := EventType.exit, value := 25, isBelow := some false }] := by
  norm_num [runValues, setValue, _setValue, isInRange, watcherC1]

/-- C10 (confirmed): a range-bound change that actually alters the bound
leaves the sample counter and sample size untouched, emits exactly the
events of the transition rules evaluated immediately against the currently
stored value (independently of the sample counter and sample size), while
setValue is gated by the sample-size debounce. -/
theorem C10_range_setters (s : WatcherState) (v w : ℚ)
    (hv : v ≠ s.rangeMin) (hw : w ≠ s.rangeMax) :
    ((setRangeMin v s).1.sampleCount = s.sampleCount ∧
      (setRangeMin v s).1.sampleSize = s.sampleSize ∧
      (setRangeMax w s).1.sampleCount = s.sampleCount ∧
      (setRangeMax w s).1.sampleSize = s.sampleSize) ∧
    ((setRangeMin v s).2 = rangeTransitionEvents { s with rangeMin := v } ∧
      (setRangeMax w s).2 = rangeTransitionEvents { s with rangeMax := w }) ∧
    (∀ c n : ℕ,
      (setRangeMin v { s with sampleCount := c, sampleSize := n }).2 =
        (setRangeMin v s).2 ∧
      (setRangeMax w { s with sampleCount := c, sampleSize := n }).2 =
        (setRangeMax w s).2) ∧
    (∀ u : ℚ, u ≠ s.val → s.sampleCount + 1 < s.sampleSize → (setValue u s).2 = []) := by
  have hv' : ¬ (s.rangeMin = v) := fun h => hv h.symm
  have hw' : ¬ (s.rangeMax = w) := fun h => hw h.symm
  refine ⟨?_, ?_, ?_, ?_⟩
  · simp [setRangeMin, setRangeMax, _setRange, hv', hw']
  · simp [setRangeMin, setRangeMax, _setRange, hv', hw', rangeTransitionEvents, isInRange]
  · intro c n
    simp [setRangeMin, setRangeMax, _setRange, hv', hw', rangeTransitionEvents, isInRange]
  · intro u hu hcount
    have hu' : ¬ (s.val = u) := fun h => hu h.symm
    simp [setValue, _setValue, hu', hcount]

/-- C10 witness: the theorem applied to the concrete mid-debounce state
wStateC10 with new bounds 5 and 25. -/
theorem C10_witness :
    (setRangeMin 5 wStateC10).1.sampleCount = wStateC10.sampleCount ∧
      (setRangeMax 25 wStateC10).2 =
        rangeTransitionEvents { wStateC10 with rangeMax := 25 } := by
  have h := C10_range_setters wStateC10 5 25 (by norm_num [wStateC10])
    (by norm_num [wStateC10])
  exact ⟨h.1.1, h.2.1.2⟩

/-- xDiff of a longitude with itself is 0 (both antimeridian branches have
contradictory guards). -/
theorem xDiff_self (a : ℚ) : xDiff a a = 0 := by
  simp only [xDiff]
  split_ifs with h1 h2
  · linarith [h1.1, h1.2]
  · linarith [h2.1, h2.2]
  · ring

/-- C2 (code bug, evaluation at the failing input): for the reversed
three-waypoint route of srcC2 (equator waypoints at 0°E, 1°E, 2°E, taxicab
legs of length 1, current index 1), the source's routeRemaining sums both
legs (result 2) because its loop runs to lastIndex, while the mirrored-index
sum described by the spec (and by the computed-but-unused toIndex bound)
is the single leg from waypoint 0 to waypoint 1 (result 1). -/
theorem C2_reverse_bug :
    routeRemaining geoTaxi srcC2 false = 2 ∧
      routeRemainingSpecReverse geoTaxi srcC2 false = 1 := by
  norm_num [routeRemaining, routeRemainingSpecReverse, srcC2, legSum, legLoop,
    wptToLatLon, geoTaxi, geoZero, taxi]

/-- C9 (confirmed): when the vessel position coincides with the destination
or with the leg origin, passedPerpendicular returns false.  In the first
case the vessel vector has zero length, the source divides by zero, acos
propagates NaN, and NaN > 90 is false; in the second case both vectors are
equal, so their dot product is a nonnegative sum of squares. -/
theorem C9_degenerate (vp dest sp : Position) (h : vp = dest ∨ vp = sp) :
    passedPerpendicular vp dest sp = false := by
  rcases h with h | h
  · subst h
    simp [passedPerpendicular, toVector, xDiff_self]
  · subst h
    simp only [passedPerpendicular]
    split_ifs with hz
    · rfl
    · simp only [decide_eq_false_iff_not, not_lt]
      have h1 := mul_self_nonneg (toVector dest vp).x
      have h2 := mul_self_nonneg (toVector dest vp).y
      linarith

/-- C9 witness: a vessel exactly at the destination. -/
theorem C9_witness : passedPerpendicular pos00 pos00 pos11 = false :=
  C9_degenerate pos00 pos00 pos11 (Or.inl rfl)

/-- C3 (corrected, counterexample): a snapshot whose previousPoint entry is
entirely absent has an absent leg-origin position, yet calcs throws a
TypeError (the unguarded access src['navigation.course.previousPoint']
.position at course.ts:59) instead of returning the sentinel. -/
theorem C3_counterexample :
    calcs geoZero 0 srcC3bad = Except.error JsError.typeError ∧
      calcs geoZero 0 srcC3bad ≠ Except.ok emptyCourseData := by
  constructor
  · rfl
  · intro h
    simp [calcs, srcC3bad, destOf, startOf] at h

/-- C3 (amended): calcs returns exactly the sentinel
{gc: empty, rl: empty, passedPerpendicular: false} for the absence shapes
that reach its guard: vessel position absent, nextPoint entry absent, or
previousPoint entry present with an absent position — provided no present
nextPoint entry lacks a position and the previousPoint entry is present
(otherwise the unguarded accesses throw before the guard). -/
theorem C3_sentinel_amended (geo : GeoLib) (now : ℤ) (src : SKPathsM)
    (habs : src.navPosition = none ∨ src.nextPoint = none ∨
      ∃ pp, src.previousPoint = some pp ∧ pp.position = none)
    (hnp : ∀ np, src.nextPoint = some np → np.position ≠ none)
    (hpp : src.previousPoint ≠ none) :
    calcs geo now src = Except.ok emptyCourseData := by
  cases hpcase : src.previousPoint with
  | none => exact absurd hpcase hpp
  | some pp =>
    cases hncase : src.nextPoint with
    | none =>
      cases hvcase : src.navPosition with
      | none => simp [calcs, hncase, hpcase, destOf, startOf]
      | some vp => simp [calcs, hncase, hpcase, destOf, startOf]
    | some np =>
      have hnpos := hnp np hncase
      cases hposcase : np.position with
      | none => exact absurd hposcase hnpos
      | some p =>
        cases hvcase : src.navPosition with
        | none => simp [calcs, hvcase, hncase, hpcase, hposcase, destOf, startOf]
        | some vp =>
          rcases habs with h | h | ⟨pp2, hpp2, hpos2⟩
          · rw [hvcase] at h; cases h
          · rw [hncase] at h; cases h
          · rw [hpcase] at hpp2
            have he : pp = pp2 := by injection hpp2
            subst he
            simp [calcs, hvcase, hncase, hpcase, hposcase, hpos2, destOf, startOf]

/-- C3 witness: the amended statement at a snapshot missing vessel and
next-point positions with a well-formed previousPoint entry. -/
theorem C3_witness : calcs geoZero 0 srcC3ok = Except.ok emptyCourseData :=
  C3_sentinel_amended geoZero 0 srcC3ok (Or.inl rfl)
    (by intro np h; simp [srcC3ok] at h) (by simp [srcC3ok])

/-- C4 (corrected, counterexample): with an active route of exactly one
waypoint (srcC4) the route-level fields are populated, not null: under
geoC4 (distance 1000, vmc = 5) both method results carry
route.timeToGo = 200 s and route.distance = 1000 m. -/
theorem C4_counterexample :
    (calcs geoC4 0 srcC4).toOption.map
        (fun d => (d.gc.routeTimeToGo, d.gc.routeDistance, d.rl.routeTimeToGo)) =
      some (some 200, some 1000, some 200) := by
  norm_num [calcs, srcC4, destOf, startOf, calcsFull, timeCalcs, vmc, vmg,
    targetSpeed, routeRemaining, geoC4, geoZero, pos00, pos11, Except.toOption]

/-- C4 (amended): the route-level time/ETA/distance fields are null when
the active route is absent, its waypoints are not an array, or the
waypoint array is empty; but with a nonempty waypoint array of fewer than
2 waypoints (exactly 1) and a valid nonzero vmc they are populated, with
routeRemaining contributing 0 (route.distance = distance). -/
theorem C4_routeFields_amended (geo : GeoLib) (now : ℤ) (src : SKPathsM)
    (d v : ℚ) (rl : Bool) :
    (((src.activeRoute.bind ActiveRoute.waypoints).getD []).length = 0 →
        (timeCalcs geo now src d (some v) rl).routeTtg = none ∧
        (timeCalcs geo now src d (some v) rl).routeEta = none ∧
        (timeCalcs geo now src d (some v) rl).routeDtg = none) ∧
    (∀ ar w, src.activeRoute = some ar → ar.waypoints = some w → w.length = 1 →
        v ≠ 0 → (timeCalcs geo now src d (some v) rl).routeDtg = some d) := by
  constructor
  · intro h
    rcases hA : src.activeRoute with _ | ar
    · by_cases hv : v = 0 <;> simp [timeCalcs, hA, hv]
    · rcases hW : ar.waypoints with _ | w
      · by_cases hv : v = 0 <;> simp [timeCalcs, hA, hW, hv]
      · have hlen : w.length = 0 := by simpa [hA, hW] using h
        by_cases hv : v = 0 <;> simp [timeCalcs, hA, hW, hv, hlen]
  · intro ar w hA hW hlen hv
    rcases hP : ar.pointIndex with _ | pi <;>
      simp [timeCalcs, hA, hW, hlen, hv, routeRemaining, hP]

/-- C4 witness: the amended statement's populated branch at a one-waypoint
route with vmc = 3 and distance 7. -/
theorem C4_witness :
    (timeCalcs geoZero 0 srcOneWpt 7 (some 3) false).routeDtg = some 7 :=
  (C4_routeFields_amended geoZero 0 srcOneWpt 7 3 false).2
    { pointIndex := some 0, waypoints := some [(3, 3)], reverse := false }
    [(3, 3)] rfl rfl rfl (by norm_num)

/-- Once the active-destination flag is cleared, snapshots that all lack a
required position produce no further output and leave the flag cleared. -/
theorem runWorker_inactive (geo : GeoLib) (now : ℤ) (ms : List SKPathsM)
    (h : ∀ m ∈ ms, parseSKPaths m = false) :
    runWorker geo now false ms = (false, []) := by
  induction ms with
  | nil => rfl
  | cons m rest ih =>
    have hm := h m (List.mem_cons_self m rest)
    have hrest : ∀ x ∈ rest, parseSKPaths x = false :=
      fun x hx => h x (List.mem_cons_of_mem m hx)
    simp [runWorker, handleMsg, hm, ih hrest]

/-- From the cleared state, a run of incomplete snapshots followed by one
complete snapshot emits exactly the result for the complete snapshot. -/
theorem runWorker_bad_then_good (geo : GeoLib) (now : ℤ) (ms : List SKPathsM)
    (m1 : SKPathsM) (hbad : ∀ m ∈ ms, parseSKPaths m = false)
    (hgood : parseSKPaths m1 = true) :
    runWorker geo now false (ms ++ [m1]) =
      (true, [WorkerOut.result (calcs geo now m1)]) := by
  induction ms with
  | nil => simp [runWorker, handleMsg, hgood]
  | cons m rest ih =>
    have hm := hbad m (List.mem_cons_self m rest)
    have hrest : ∀ x ∈ rest, parseSKPaths x = false :=
      fun x hx => hbad x (List.mem_cons_of_mem m hx)
    simp [runWorker, handleMsg, hm, ih hrest]

/-- C7 (confirmed): after a complete snapshot m0 produces a result (setting
the activeDest flag), a nonempty run of snapshots b, ms that all lack a
required position makes the worker post the clearing message exactly once,
with no further output until the next complete snapshot m1, which posts a
result again. -/
theorem C7_sentinel_once (geo : GeoLib) (now : ℤ) (st : Bool)
    (m0 b m1 : SKPathsM) (ms : List SKPathsM)
    (h0 : parseSKPaths m0 = true) (hb : parseSKPaths b = false)
    (hms : ∀ m ∈ ms, parseSKPaths m = false) (h1 : parseSKPaths m1 = true) :
    (runWorker geo now st (m0 :: b :: (ms ++ [m1]))).2 =
      [WorkerOut.result (calcs geo now m0), WorkerOut.cleared,
        WorkerOut.result (calcs geo now m1)] := by
  simp [runWorker, handleMsg, h0, hb, runWorker_bad_then_good geo now ms m1 hms h1]

/-- C7 witness: the sequence complete, incomplete, complete from an
inactive start posts result, cleared, result. -/
theorem C7_witness :
    (runWorker geoZero 0 false [srcGood, srcBad, srcGood]).2 =
      [WorkerOut.result (calcs geoZero 0 srcGood), WorkerOut.cleared,
        WorkerOut.result (calcs geoZero 0 srcGood)] :=
  C7_sentinel_once geoZero 0 false srcGood srcBad srcGood [] rfl rfl
    (by intro m hm; simp at hm) rfl

/-- C8 (confirmed): whenever all three required positions are present, the
crossTrackError of the GreatCircle result is the single value
crossTrackDistanceTo(vessel; startPoint, destination) computed against the
great-circle path, and the Rhumbline result reports the same value. -/
theorem C8_crossTrackError (geo : GeoLib) (now : ℤ) (src : SKPathsM)
    (vp dest sp : Position) (np pp : PointEntry)
    (hv : src.navPosition = some vp) (hn : src.nextPoint = some np)
    (hnpos : np.position = some dest) (hp : src.previousPoint = some pp)
    (hppos : pp.position = some sp) :
    calcs geo now src = Except.ok (calcsFull geo now src vp dest sp) ∧
      (calcsFull geo now src vp dest sp).gc.crossTrackError =
        some (geo.crossTrackDistanceTo vp sp dest) ∧
      (calcsFull geo now src vp dest sp).rl.crossTrackError =
        (calcsFull geo now src vp dest sp).gc.crossTrackError := by
  refine ⟨?_, ?_, ?_⟩
  · simp [calcs, hv, hn, hnpos, hp, hppos, destOf, startOf]
  · simp [calcsFull]
  · simp [calcsFull]

/-- C8 witness: the theorem at the complete snapshot srcGood under geoZero. -/
theorem C8_witness :
    calcs geoZero 0 srcGood = Except.ok (calcsFull geoZero 0 srcGood pos00 pos11 pos00) ∧
      (calcsFull geoZero 0 srcGood pos00 pos11 pos00).gc.crossTrackError =
        some (geoZero.crossTrackDistanceTo pos00 pos00 pos11) ∧
      (calcsFull geoZero 0 srcGood pos00 pos11 pos00).rl.crossTrackError =
        (calcsFull geoZero 0 srcGood pos00 pos11 pos00).gc.crossTrackError :=
  C8_crossTrackError geoZero 0 srcGood pos00 pos11 pos00
    { position := some pos11 } { position := some pos00 } rfl rfl rfl rfl rfl

end CourseProvider
